import Mathlib

/-!
Verification of the literal-value module of the expression system
(`src/dsl/lit.rs`): the `LiteralValue` scalar enum, its rendering, its
logical-type mapping `get_type`, its materialization `to_series`, and the
`Literal` conversion protocol (`lit`, `null_lit`).

The module never computes with its payloads; it stores, retrieves,
formats and materializes them.  Machine integers are therefore carried as
`Int`/`Nat` (no arithmetic, so no overflow is in play), byte buffers as
`List Nat`, and a 64-bit float payload as its raw bit pattern; formatting
of a float delegates to the host standard formatter, which every theorem
quantifies over.
-/

/-- Bit pattern of a 64-bit IEEE-754 float payload.  The literal module
stores, copies and compares float payloads structurally and never does
float arithmetic, so the payload is carried as its raw 64-bit pattern. -/
structure F64 where
  bits : Nat
deriving DecidableEq

/-- Modelled from the spec: the logical type registry is an external
collaborator; only the nine tags consumed by the literal module are
represented. -/
inductive DataType where
  | Null
  | Boolean
  | Utf8
  | Binary
  | Int32
  | UInt32
  | Int64
  | UInt64
  | Float64
deriving DecidableEq

/-- Stores a literal value for queries and computations, one variant per
supported logical type, as in the source enum.  Payloads: i32 and i64 as
integers, u32 and u64 as naturals, binary as a byte list, f64 as its bit
pattern. -/
inductive LiteralValue where
  | Null
  | Boolean (val : Bool)
  | Utf8 (val : String)
  | Binary (val : List Nat)
  | Int32 (val : Int)
  | UInt32 (val : Nat)
  | Int64 (val : Int)
  | UInt64 (val : Nat)
  | Float64 (val : F64)
deriving DecidableEq

/-- Translation of the Display implementation: one exhaustive branch per
variant, writing the text shown.  Formatting of a float payload delegates
to the external standard decimal formatter, passed in as fmtF64. -/
def LiteralValue.fmt (fmtF64 : F64 → String) : LiteralValue → String
  | .Null => "Null"
  | .Boolean val => toString val
  | .Utf8 val => val
  | .Binary val => "Binary[" ++ toString val.length ++ "]"
  | .Int32 val => toString val
  | .UInt32 val => toString val
  | .Int64 val => toString val
  | .UInt64 val => toString val
  | .Float64 val => fmtF64 val

/-- Translation of LiteralValue::get_type: each variant maps to its one
DataType constant. -/
def LiteralValue.get_type : LiteralValue → DataType
  | .Null => .Null
  | .Boolean _ => .Boolean
  | .Utf8 _ => .Utf8
  | .Binary _ => .Binary
  | .Int32 _ => .Int32
  | .UInt32 _ => .UInt32
  | .Int64 _ => .Int64
  | .UInt64 _ => .UInt64
  | .Float64 _ => .Float64

/-- Modelled from the spec: one element of a column, either null or a
typed scalar matching the column's logical type. -/
inductive Cell where
  | null
  | boolean (b : Bool)
  | utf8 (s : String)
  | binary (bs : List Nat)
  | int32 (i : Int)
  | uint32 (n : Nat)
  | int64 (i : Int)
  | uint64 (n : Nat)
  | float64 (x : F64)
deriving DecidableEq

/-- Modelled from the spec: a column (Series) of the engine, a named,
single-type, ordered fixed-length container of values. -/
structure Series where
  name : String
  dtype : DataType
  items : List Cell
deriving DecidableEq

/-- Modelled from the spec: the external NullArray::full_null constructor
(composed with into_series) producing an all-null column of the null type
with the given name and length. -/
def NullArray.full_null (name : String) (len : Nat) : Series :=
  ⟨name, .Null, List.replicate len .null⟩

/-- Modelled from the spec: the external BooleanArray slice constructor
(composed with into_series), building a boolean column holding exactly the
given values. -/
def BooleanArray.fromSlice (name : String) (vals : List Bool) : Series :=
  ⟨name, .Boolean, vals.map .boolean⟩

/-- Modelled from the spec: the external Utf8Array slice constructor
(composed with into_series), copying the given strings into a text
column. -/
def Utf8Array.fromSlice (name : String) (vals : List String) : Series :=
  ⟨name, .Utf8, vals.map .utf8⟩

/-- Modelled from the spec: the external Int32Array slice constructor
(composed with into_series). -/
def Int32Array.fromSlice (name : String) (vals : List Int) : Series :=
  ⟨name, .Int32, vals.map .int32⟩

/-- Modelled from the spec: the external UInt32Array slice constructor
(composed with into_series). -/
def UInt32Array.fromSlice (name : String) (vals : List Nat) : Series :=
  ⟨name, .UInt32, vals.map .uint32⟩

/-- Modelled from the spec: the external Int64Array slice constructor
(composed with into_series). -/
def Int64Array.fromSlice (name : String) (vals : List Int) : Series :=
  ⟨name, .Int64, vals.map .int64⟩

/-- Modelled from the spec: the external UInt64Array slice constructor
(composed with into_series). -/
def UInt64Array.fromSlice (name : String) (vals : List Nat) : Series :=
  ⟨name, .UInt64, vals.map .uint64⟩

/-- Modelled from the spec: the external Float64Array slice constructor
(composed with into_series). -/
def Float64Array.fromSlice (name : String) (vals : List F64) : Series :=
  ⟨name, .Float64, vals.map .float64⟩

/-- Translation of LiteralValue::to_series.  The Binary arm panics in the
source; the panic is embedded as none, every other arm as some of the
column it builds. -/
def LiteralValue.to_series : LiteralValue → Option Series
  | .Null => some (NullArray.full_null "lit" 1)
  | .Boolean val => some (BooleanArray.fromSlice "lit" [val])
  | .Utf8 val => some (Utf8Array.fromSlice "lit" [val])
  | .Binary _ => none
  | .Int32 val => some (Int32Array.fromSlice "lit" [val])
  | .UInt32 val => some (UInt32Array.fromSlice "lit" [val])
  | .Int64 val => some (Int64Array.fromSlice "lit" [val])
  | .UInt64 val => some (UInt64Array.fromSlice "lit" [val])
  | .Float64 val => some (Float64Array.fromSlice "lit" [val])

/-- Whether the scalar is the Binary variant, whose materialization is the
one unsupported case. -/
def LiteralValue.isBinaryVal : LiteralValue → Bool
  | .Binary _ => true
  | _ => false

/-- The cell a scalar is expected to occupy in its materialized column:
null for the Null variant, the payload itself otherwise. -/
def LiteralValue.cellOf : LiteralValue → Cell
  | .Null => .null
  | .Boolean val => .boolean val
  | .Utf8 val => .utf8 val
  | .Binary val => .binary val
  | .Int32 val => .int32 val
  | .UInt32 val => .uint32 val
  | .Int64 val => .int64 val
  | .UInt64 val => .uint64 val
  | .Float64 val => .float64 val

/-- Modelled from the spec: the expression tree is an external
collaborator; only its literal leaf constructor is relevant here. -/
inductive Expr where
  | Literal (value : LiteralValue)
deriving DecidableEq

/-- Reading the scalar back out of a literal expression leaf. -/
def Expr.unwrapLiteral : Expr → Option LiteralValue
  | .Literal v => some v

/-- Translation of the Literal trait: the capability letting a host scalar
type become a literal expression leaf. -/
class Literal (α : Type) where
  lit : α → Expr

/-- Modelled from the spec: the by-reference text host type (a borrowed
string slice), distinct from the owned text type. -/
structure StrRef where
  s : String
deriving DecidableEq

/-- Copying a borrowed string slice into an owned string. -/
def StrRef.to_owned (r : StrRef) : String := r.s

/-- Host-side i32 scalar, a distinct nominal type of the host language. -/
structure HostI32 where
  val : Int
deriving DecidableEq

/-- Host-side u32 scalar, a distinct nominal type of the host language. -/
structure HostU32 where
  val : Nat
deriving DecidableEq

/-- Host-side i64 scalar, a distinct nominal type of the host language. -/
structure HostI64 where
  val : Int
deriving DecidableEq

/-- Host-side u64 scalar, a distinct nominal type of the host language. -/
structure HostU64 where
  val : Nat
deriving DecidableEq

instance : Literal String where
  lit self := Expr.Literal (.Utf8 self)

instance : Literal StrRef where
  lit self := Expr.Literal (.Utf8 self.to_owned)

instance : Literal Bool where
  lit self := Expr.Literal (.Boolean self)

instance : Literal HostI32 where
  lit self := Expr.Literal (.Int32 self.val)

instance : Literal HostU32 where
  lit self := Expr.Literal (.UInt32 self.val)

instance : Literal HostI64 where
  lit self := Expr.Literal (.Int64 self.val)

instance : Literal HostU64 where
  lit self := Expr.Literal (.UInt64 self.val)

instance : Literal F64 where
  lit self := Expr.Literal (.Float64 self)

/-- Translation of the free function lit: the generic entry point that
delegates to the Literal capability. -/
def lit {L : Type} [Literal L] (t : L) : Expr := Literal.lit t

/-- Translation of null_lit: the explicit null-literal entry point. -/
def null_lit : Expr := Expr.Literal .Null

/-- C1: for every LiteralValue other than Binary, materializing with
to_series succeeds, reading back the single element yields the original
scalar's value, and get_type equals the data type of the produced
series. -/
theorem to_series_roundtrip (lv : LiteralValue) (h : lv.isBinaryVal = false) :
    ∃ s : Series, lv.to_series = some s ∧ s.items = [lv.cellOf] ∧
      lv.get_type = s.dtype := by
  cases lv <;> first
    | exact ⟨_, rfl, rfl, rfl⟩
    | simp [LiteralValue.isBinaryVal] at h

/-- Witness for C1 at the concrete scalar Int64 7. -/
theorem to_series_roundtrip_witness :
    ∃ s : Series, (LiteralValue.Int64 7).to_series = some s ∧
      s.items = [(LiteralValue.Int64 7).cellOf] ∧
      (LiteralValue.Int64 7).get_type = s.dtype :=
  to_series_roundtrip (LiteralValue.Int64 7) rfl

/-- C2: to_series on a Binary scalar reaches the unconditional panic arm
(embedded as none) for every byte payload. -/
theorem to_series_binary_fails (bs : List Nat) :
    (LiteralValue.Binary bs).to_series = none := rfl

/-- C3: get_type is a total pure structural mapping sending each variant
to its one predetermined DataType constant, independent of the payload. -/
theorem get_type_structural_map (b : Bool) (s : String) (bs : List Nat)
    (i : Int) (n : Nat) (j : Int) (m : Nat) (x : F64) :
    LiteralValue.Null.get_type = DataType.Null ∧
    (LiteralValue.Boolean b).get_type = DataType.Boolean ∧
    (LiteralValue.Utf8 s).get_type = DataType.Utf8 ∧
    (LiteralValue.Binary bs).get_type = DataType.Binary ∧
    (LiteralValue.Int32 i).get_type = DataType.Int32 ∧
    (LiteralValue.UInt32 n).get_type = DataType.UInt32 ∧
    (LiteralValue.Int64 j).get_type = DataType.Int64 ∧
    (LiteralValue.UInt64 m).get_type = DataType.UInt64 ∧
    (LiteralValue.Float64 x).get_type = DataType.Float64 :=
  ⟨rfl, rfl, rfl, rfl, rfl, rfl, rfl, rfl, rfl⟩

/-- C4: for every non-Binary scalar, to_series builds a length-1 column
named "lit" whose data type matches the variant and whose single element
is exactly the scalar's value; for the Null variant the result is a
length-1 all-null column of the null type. -/
theorem to_series_shape (lv : LiteralValue) (h : lv.isBinaryVal = false) :
    ∃ s : Series, lv.to_series = some s ∧ s.name = "lit" ∧
      s.items.length = 1 ∧ s.dtype = lv.get_type ∧ s.items = [lv.cellOf] ∧
      (lv = LiteralValue.Null → s.dtype = DataType.Null ∧ s.items = [Cell.null]) := by
  cases lv <;> first
    | exact ⟨_, rfl, rfl, rfl, rfl, rfl, fun hn => ⟨rfl, rfl⟩⟩
    | exact ⟨_, rfl, rfl, rfl, rfl, rfl, fun hn => by cases hn⟩
    | simp [LiteralValue.isBinaryVal] at h

/-- Witness for C4 at the concrete scalar Null. -/
theorem to_series_shape_witness :
    ∃ s : Series, LiteralValue.Null.to_series = some s ∧ s.name = "lit" ∧
      s.items.length = 1 ∧ s.dtype = LiteralValue.Null.get_type ∧
      s.items = [LiteralValue.Null.cellOf] ∧
      (LiteralValue.Null = LiteralValue.Null →
        s.dtype = DataType.Null ∧ s.items = [Cell.null]) :=
  to_series_shape LiteralValue.Null rfl

/-- C5: the rendering contract per variant: Null renders as "Null";
Boolean as "true" or "false"; Utf8 verbatim with no quoting; Binary as
"Binary[<byte length>]" and never the raw bytes (the text depends only on
the length); each numeric variant as its standard decimal form, the float
through the standard formatter. -/
theorem fmt_contract (fmtF64 : F64 → String) (b : Bool) (s : String)
    (bs bs2 : List Nat) (i : Int) (n : Nat) (j : Int) (m : Nat) (x : F64)
    (h : bs.length = bs2.length) :
    LiteralValue.Null.fmt fmtF64 = "Null" ∧
    (LiteralValue.Boolean b).fmt fmtF64 = (if b then "true" else "false") ∧
    (LiteralValue.Utf8 s).fmt fmtF64 = s ∧
    (LiteralValue.Binary bs).fmt fmtF64 = "Binary[" ++ toString bs.length ++ "]" ∧
    (LiteralValue.Binary bs).fmt fmtF64 = (LiteralValue.Binary bs2).fmt fmtF64 ∧
    (LiteralValue.Int32 i).fmt fmtF64 = toString i ∧
    (LiteralValue.UInt32 n).fmt fmtF64 = toString n ∧
    (LiteralValue.Int64 j).fmt fmtF64 = toString j ∧
    (LiteralValue.UInt64 m).fmt fmtF64 = toString m ∧
    (LiteralValue.Float64 x).fmt fmtF64 = fmtF64 x := by
  refine ⟨rfl, ?_, rfl, rfl, ?_, rfl, rfl, rfl, rfl, rfl⟩
  · cases b <;> rfl
  · simp only [LiteralValue.fmt, h]

/-- Witness for C5 at concrete inputs, the float formatter instantiated
with the bit-pattern printer. -/
theorem fmt_contract_witness :
    LiteralValue.Null.fmt (fun x => toString x.bits) = "Null" ∧
    (LiteralValue.Boolean true).fmt (fun x => toString x.bits) =
      (if true then "true" else "false") ∧
    (LiteralValue.Utf8 "hi").fmt (fun x => toString x.bits) = "hi" ∧
    (LiteralValue.Binary [1, 2]).fmt (fun x => toString x.bits) =
      "Binary[" ++ toString (List.length [1, 2]) ++ "]" ∧
    (LiteralValue.Binary [1, 2]).fmt (fun x => toString x.bits) =
      (LiteralValue.Binary [3, 4]).fmt (fun x => toString x.bits) ∧
    (LiteralValue.Int32 (-5)).fmt (fun x => toString x.bits) = toString (-5 : Int) ∧
    (LiteralValue.UInt32 6).fmt (fun x => toString x.bits) = toString (6 : Nat) ∧
    (LiteralValue.Int64 (-7)).fmt (fun x => toString x.bits) = toString (-7 : Int) ∧
    (LiteralValue.UInt64 8).fmt (fun x => toString x.bits) = toString (8 : Nat) ∧
    (LiteralValue.Float64 ⟨9⟩).fmt (fun x => toString x.bits) =
      (fun x : F64 => toString x.bits) ⟨9⟩ :=
  fmt_contract (fun x => toString x.bits) true "hi" [1, 2] [3, 4]
    (-5) 6 (-7) 8 ⟨9⟩ rfl

/-- C6: each supported host scalar type wraps through lit into the literal
leaf holding the matching variant, and unwrapping the leaf reproduces the
exact input value. -/
theorem lit_roundtrip (s : String) (r : StrRef) (b : Bool) (i : Int)
    (n : Nat) (j : Int) (m : Nat) (x : F64) :
    lit s = Expr.Literal (.Utf8 s) ∧
    (lit s).unwrapLiteral = some (.Utf8 s) ∧
    lit r = Expr.Literal (.Utf8 r.s) ∧
    (lit r).unwrapLiteral = some (.Utf8 r.s) ∧
    lit b = Expr.Literal (.Boolean b) ∧
    (lit b).unwrapLiteral = some (.Boolean b) ∧
    lit (HostI32.mk i) = Expr.Literal (.Int32 i) ∧
    (lit (HostI32.mk i)).unwrapLiteral = some (.Int32 i) ∧
    lit (HostU32.mk n) = Expr.Literal (.UInt32 n) ∧
    (lit (HostU32.mk n)).unwrapLiteral = some (.UInt32 n) ∧
    lit (HostI64.mk j) = Expr.Literal (.Int64 j) ∧
    (lit (HostI64.mk j)).unwrapLiteral = some (.Int64 j) ∧
    lit (HostU64.mk m) = Expr.Literal (.UInt64 m) ∧
    (lit (HostU64.mk m)).unwrapLiteral = some (.UInt64 m) ∧
    lit x = Expr.Literal (.Float64 x) ∧
    (lit x).unwrapLiteral = some (.Float64 x) :=
  ⟨rfl, rfl, rfl, rfl, rfl, rfl, rfl, rfl, rfl, rfl, rfl, rfl, rfl, rfl,
    rfl, rfl⟩

/-- C7: null_lit yields a literal leaf holding the Null variant, whose
get_type is the null data type and whose rendered text is "Null". -/
theorem null_lit_spec (fmtF64 : F64 → String) :
    ∃ v : LiteralValue, null_lit = Expr.Literal v ∧
      v.get_type = DataType.Null ∧ v.fmt fmtF64 = "Null" :=
  ⟨LiteralValue.Null, rfl, rfl, rfl⟩

/-- C8: every operation of the module except Binary materialization is
total: to_series succeeds exactly on the non-Binary variants, and
rendering and get_type always produce a value. -/
theorem total_except_binary (fmtF64 : F64 → String) (lv : LiteralValue) :
    ((lv.to_series).isSome = true ↔ lv.isBinaryVal = false) ∧
    (∃ t : String, lv.fmt fmtF64 = t) ∧
    (∃ d : DataType, lv.get_type = d) := by
  refine ⟨?_, ⟨_, rfl⟩, ⟨_, rfl⟩⟩
  cases lv <;> simp [LiteralValue.to_series, LiteralValue.isBinaryVal]

/-- C9: rendering is deterministic and pure: structurally equal scalars
render to identical text, and rendering the same scalar twice yields the
same text. -/
theorem fmt_deterministic (fmtF64 : F64 → String) (a b : LiteralValue)
    (h : a = b) :
    a.fmt fmtF64 = b.fmt fmtF64 ∧ a.fmt fmtF64 = a.fmt fmtF64 := by
  subst h
  exact ⟨rfl, rfl⟩

/-- Witness for C9 at two structurally equal Utf8 scalars. -/
theorem fmt_deterministic_witness :
    (LiteralValue.Utf8 "hi").fmt (fun x => toString x.bits) =
      (LiteralValue.Utf8 "hi").fmt (fun x => toString x.bits) ∧
    (LiteralValue.Utf8 "hi").fmt (fun x => toString x.bits) =
      (LiteralValue.Utf8 "hi").fmt (fun x => toString x.bits) :=
  fmt_deterministic (fun x => toString x.bits)
    (LiteralValue.Utf8 "hi") (LiteralValue.Utf8 "hi") rfl

/-- C10: the by-value String conversion and the by-reference text
conversion produce structurally identical literal leaves holding the same
owned text. -/
theorem string_str_lit_agree (s : String) :
    lit s = lit (StrRef.mk s) ∧ lit s = Expr.Literal (.Utf8 s) :=
  ⟨rfl, rfl⟩
